import Mathlib

set_option maxRecDepth 40000

/-!
# Verification of the seat-occupancy state machine of `seat_monitor.py`

This file is a shallow embedding, in Lean 4, of the occupancy tracker of
`src/seat_monitor.py` together with the configuration loader, the daily report
generator and the per-region detector wrapper, and proofs of the behavioural
claims about them.

Modelling conventions:

* Timestamps are natural numbers (seconds); `datetime` subtraction becomes
  integer subtraction, so `duration` is an `Int`.
* Python's float comparison `sum(history)/len(history) > 0.8` is modelled as
  the exact rational comparison `4 * len < 5 * count_true`.  For all windows
  of length `≤ 15` (the code truncates history to 15 entries) the two agree:
  the only ratios within double-precision error of `0.8` are those exactly
  equal to `4/5` (`4/5`, `8/10`, `12/15`), whose IEEE-754 quotient equals the
  double nearest `0.8` and therefore compares as not-greater, matching the
  exact comparison; every other ratio `k/n` with `n ≤ 15` differs from `4/5`
  by at least `1/75`, far outside rounding error.
* `person_id` is the string `f"person_{time}_{seat_id}"`; it is modelled as
  the pair `(time, seat_id)` that determines it.
* The code always monitors exactly one region (`__init__` keeps only the
  first configured seat, lines 49-70), so the tracker state holds one
  region's fields; the region's id and name are parameters of the step
  function, and theorems quantify over them.
* The trailing block of `update_occupancy_status` (lines 461-473, periodic
  JSON snapshotting and report scheduling) is wall-clock driven I/O and is
  outside the state machine modelled here; the per-seat loop body
  (lines 385-459) is modelled in full, including its `debug_mode`-dependent
  error path.  The construction-time flag `self.debug_mode` is a parameter
  `dbg` of the step function.  On a confirmed exit shorter than 5 seconds,
  with debug mode on, line 457's f-string reads the function-local
  `timestamp_str`, which is assigned only on the entry branch (line 421) and
  on the long-exit branch (line 453) and hence is unassigned in that frame,
  raising `UnboundLocalError` *before* the pop on lines 458-459.  The
  exception is caught by the per-frame handler of `run()` (lines 720-723),
  which logs and continues the loop, so its net effect on the tracker state
  is exactly that the pop is skipped: all mutations up to line 449
  (occupied, exit_time, duration, record completion) have already been
  applied.  The model realises the caught exception as that net effect.
-/

/-- `occupancy_status[seat_id]`, the per-seat mutable dict initialised in
`initialize_occupancy_status` (lines 144-157). -/
structure SeatStatus where
  occupied : Bool
  entry_time : Option Nat
  exit_time : Option Nat
  duration : Int
  person_id : Option (Nat × Nat)
deriving DecidableEq, Repr

/-- One element of `self.records`.  The code appends such a dict at the entry
transition (lines 424-430) with keys `timestamp`, `seat_id`, `seat_name`,
`person_id`, `action`; the exit transition later adds the keys `exit_time`
and `duration_seconds` (lines 445-449), modelled as the two `Option` fields
starting at `none`. -/
structure EventRecord where
  timestamp : Nat
  seat_id : Nat
  seat_name : String
  person_id : Nat × Nat
  action : String
  exit_time : Option Nat
  duration_seconds : Option Int
deriving DecidableEq, Repr

/-- The tracker state for the single monitored region: the seat's
`occupancy_status` entry, the two debounce counters `enter_counters[seat_id]`
and `leave_counters[seat_id]`, the detection history
`occupancy_history[seat_id]` and the in-memory `records` list. -/
structure TrackerState where
  status : SeatStatus
  enter_counter : Nat
  leave_counter : Nat
  history : List Bool
  records : List EventRecord
deriving DecidableEq, Repr

/-- Python's `l[-n:]`: the last `n` elements of a list. -/
def lastN (n : Nat) (l : List α) : List α := l.drop (l.length - n)

/-- Line 403-404: `history_occupied_ratio = sum(h)/len(h)` and
`final_occupied = history_occupied_ratio > 0.8`, as the exact rational
comparison (see the float discussion in the file header). -/
def final_occupied (h : List Bool) : Bool := 4 * h.length < 5 * h.count true

/-- The per-seat state set by `initialize_occupancy_status` (lines 144-157). -/
def initial_status : SeatStatus :=
  { occupied := false, entry_time := none, exit_time := none, duration := 0, person_id := none }

/-- The tracker state at construction: seat Free, counters `0`, empty
detection history (created on first use, lines 381-382 and 407-408), empty
`records` list (line 79). -/
def initial_state : TrackerState :=
  { status := initial_status, enter_counter := 0, leave_counter := 0, history := [], records := [] }

/-- Line 419: `person_id = f"person_{now:%Y%m%d%H%M%S}_{seat_id}"`, modelled
as the determining pair (timestamp, seat id). -/
def make_person_id (t : Nat) (sid : Nat) : Nat × Nat := (t, sid)

/-- Lines 447-448: write `exit_time` and `duration_seconds` into a record. -/
def complete_record (r : EventRecord) (ex : Nat) (dur : Int) : EventRecord :=
  { r with exit_time := some ex, duration_seconds := some dur }

/-- Lines 445-449 walk `reversed(self.records)` and complete the first record
whose `person_id` matches the seat's current `person_id` and whose `action`
is `"enter"`; this helper performs that search on the reversed list. -/
def update_matching_rev (pid : Option (Nat × Nat)) (ex : Nat) (dur : Int) :
    List EventRecord → List EventRecord
  | [] => []
  | r :: rs =>
    if some r.person_id = pid ∧ r.action = "enter" then complete_record r ex dur :: rs
    else r :: update_matching_rev pid ex dur rs

/-- Lines 445-449 on the records list in its stored order. -/
def update_matching (recs : List EventRecord) (pid : Option (Nat × Nat)) (ex : Nat) (dur : Int) :
    List EventRecord :=
  (update_matching_rev pid ex dur recs.reverse).reverse

/-- Lines 458-459: `if records and records[-1]['action'] == 'enter' and
records[-1]['person_id'] == person_id: records.pop()`. -/
def pop_short (recs : List EventRecord) (pid : Option (Nat × Nat)) : List EventRecord :=
  match recs.getLast? with
  | some r => if r.action = "enter" ∧ some r.person_id = pid then recs.dropLast else recs
  | none => recs

/-- Lines 416-430: after the counters were updated for a positive smoothed
detection, transition to Occupied when the seat is Free and five consecutive
positive frames have been counted; set `entry_time`, `person_id` and append
the `action: enter` record. -/
def step_pos (sid : Nat) (sname : String) (s1 : TrackerState) (t : Nat) : TrackerState :=
  if s1.status.occupied = false ∧ 5 ≤ s1.enter_counter then
    { s1 with
      status := { s1.status with
        occupied := true, entry_time := some t, person_id := some (make_person_id t sid) },
      records := s1.records ++
        [{ timestamp := t, seat_id := sid, seat_name := sname,
           person_id := make_person_id t sid, action := "enter",
           exit_time := none, duration_seconds := none }] }
  else s1

/-- Lines 438-459: the confirmed exit transition, with `dbg` the
construction-time `self.debug_mode` flag.  `occupied` is cleared and
`exit_time` set unconditionally (438-439); if `entry_time` is set, the
duration is computed (442-443) and the matching `enter` record is completed
in place (445-449).  When the duration is below the 5-second minimum, the
source then reaches `if self.debug_mode:` (line 456); with debug mode *on*,
line 457's f-string reads the never-assigned local `timestamp_str` and
raises `UnboundLocalError` before the pop, and the exception is caught by
the per-frame handler in `run()` (line 720), so the completed record stays;
with debug mode *off*, the pop on lines 458-459 executes. -/
def step_exit (dbg : Bool) (s1 : TrackerState) (t : Nat) : TrackerState :=
  match s1.status.entry_time with
  | none => { s1 with status := { s1.status with occupied := false, exit_time := some t } }
  | some et =>
    let dur : Int := (t : Int) - (et : Int)
    let recs2 := update_matching s1.records s1.status.person_id t dur
    { s1 with
      status := { s1.status with occupied := false, exit_time := some t, duration := dur },
      records :=
        if 5 ≤ dur then recs2
        else if dbg = true then recs2
        else pop_short recs2 s1.status.person_id }

/-- Lines 437-459: after the counters were updated for a negative smoothed
detection, exit when the seat is Occupied and twenty consecutive negative
frames have been counted. -/
def step_neg (dbg : Bool) (s1 : TrackerState) (t : Nat) : TrackerState :=
  if s1.status.occupied = true ∧ 20 ≤ s1.leave_counter then step_exit dbg s1 t else s1

/-- One iteration of the per-seat body of `update_occupancy_status`
(lines 385-459) for the detection boolean `det` observed at time `t`, with
`dbg` the `self.debug_mode` flag: append to the truncated history (397-399),
compute the smoothed decision (403-404), update the counters
(412-413 / 433-434) and apply the transition logic. -/
def step (dbg : Bool) (sid : Nat) (sname : String) (s : TrackerState) (det : Bool) (t : Nat) :
    TrackerState :=
  let h := lastN 15 (s.history ++ [det])
  if final_occupied h then
    step_pos sid sname
      { s with history := h, enter_counter := s.enter_counter + 1, leave_counter := 0 } t
  else
    step_neg dbg
      { s with history := h, leave_counter := s.leave_counter + 1, enter_counter := 0 } t

/-- Feed a sequence of `(detected, time)` observations to the tracker, as
the frame loop of `run()` does (a caught per-frame exception does not stop
the loop). -/
def run (dbg : Bool) (sid : Nat) (sname : String) (s : TrackerState) (obs : List (Bool × Nat)) :
    TrackerState :=
  obs.foldl (fun st o => step dbg sid sname st o.1 o.2) s

/-- The smoothed (`final_occupied`, line 404) decision the tracker makes for
the next raw detection fed from state `s`. -/
def decision (s : TrackerState) (det : Bool) : Bool :=
  final_occupied (lastN 15 (s.history ++ [det]))

/-- The sequence of smoothed decisions made while processing an observation
sequence. -/
def decision_trace (dbg : Bool) (sid : Nat) (sname : String) (s : TrackerState) :
    List (Bool × Nat) → List Bool
  | [] => []
  | o :: rest => decision s o.1 :: decision_trace dbg sid sname (step dbg sid sname s o.1 o.2) rest

/-- Length of the trailing run of elements equal to `b`. -/
def trail_count (b : Bool) (l : List Bool) : Nat :=
  l.foldl (fun n x => if x = b then n + 1 else 0) 0

/-- Length of the longest run of consecutive elements equal to `b`. -/
def max_run (b : Bool) (l : List Bool) : Nat :=
  (l.foldl (fun (p : Nat × Nat) x =>
    if x = b then (p.1 + 1, max p.2 (p.1 + 1)) else (0, p.2)) (0, 0)).2

/-! ## Configuration loading (`load_config`, lines 105-136) -/

/-- The Python exceptions relevant to the embedded code paths. -/
inductive PyError
  | attributeError
  | zeroDivisionError
deriving DecidableEq, Repr

structure Resolution where
  width : Nat
  height : Nat
deriving DecidableEq, Repr

structure CameraConfig where
  resolution : Resolution
  framerate : Nat
  rotation : Int
deriving DecidableEq, Repr

structure DetectionConfig where
  motion_threshold : Nat
  detection_interval : ℚ
deriving DecidableEq, Repr

structure SeatConfig where
  id : Nat
  name : String
  region : List (Int × Int)
deriving DecidableEq, Repr

structure DataConfig where
  save_interval : Nat
  reports_directory : String
  data_directory : String
  known_faces_directory : String
deriving DecidableEq, Repr

structure Config where
  camera : CameraConfig
  detection : DetectionConfig
  seats : List SeatConfig
  data : DataConfig
deriving DecidableEq, Repr

/-- The hard-coded default configuration returned by the `except` branch of
`load_config` (lines 117-136). -/
def default_config : Config :=
  { camera := { resolution := { width := 1280, height := 720 }, framerate := 10, rotation := 0 },
    detection := { motion_threshold := 10000, detection_interval := 1 / 10 },
    seats := [{ id := 1, name := "监控区域",
                region := [(100, 150), (300, 150), (300, 350), (100, 350)] }],
    data := { save_interval := 60, reports_directory := "reports",
              data_directory := "data", known_faces_directory := "known_faces" } }

/-- `log_message` (lines 206-228) begins with `if self.log_file:`.  Reading
`self.log_file` raises `AttributeError` when the instance attribute has not
been assigned yet; `log_file_attr = none` models the absent attribute, while
`some v` models an assigned attribute (possibly assigned `None`), for which
the method returns normally. -/
def log_message (log_file_attr : Option (Option String)) : Except PyError Unit :=
  match log_file_attr with
  | none => Except.error PyError.attributeError
  | some _ => Except.ok ()

/-- `load_config` (lines 105-136).  `parsed = some cfg` models a config file
that opens and JSON-parses successfully, in which case the seat list is
truncated to its first element; `parsed = none` models any failure of the
`open`/`json.load` block (missing file, bad JSON), which enters the `except`
branch: it first calls `self.log_message(...)` and, only if that returns,
yields the default configuration. -/
def load_config (parsed : Option Config) (log_file_attr : Option (Option String)) :
    Except PyError Config :=
  match parsed with
  | some cfg => Except.ok { cfg with seats := cfg.seats.take 1 }
  | none =>
    match log_message log_file_attr with
    | Except.ok _ => Except.ok default_config
    | Except.error e => Except.error e

/-- `SeatMonitor.__init__` calls `self.load_config(config_file)` on line 25,
before `self.log_file = None` on line 31, so at that call the `log_file`
attribute does not exist yet. -/
def init_load_config (parsed : Option Config) : Except PyError Config :=
  load_config parsed none

/-! ## Daily report generation (`generate_daily_report`, lines 332-373) -/

/-- One row of `occupancy_records_YYYYMMDD.csv` as the report reads it. -/
structure CsvRow where
  seat_name : String
  person_id : Nat × Nat
  duration_seconds : Int
deriving DecidableEq, Repr

/-- How `generate_daily_report` returns to its caller: the Python function
either falls off the end / hits a bare `return` (value `None`) or would
propagate an exception. -/
inductive ReportResult
  | returned_none
  | raised (e : PyError)
deriving DecidableEq, Repr

/-- The headline statistics computed on lines 346-348. -/
structure DailyStats where
  total_records : Nat
  unique_persons : Nat
  total_duration_seconds : Int
deriving DecidableEq, Repr

/-- `generate_daily_report(date)` (lines 332-373).  `day_file = none` models
`not os.path.isfile(filename)`: the code logs at INFO level and does a bare
`return` (lines 337-339) — no exception, no report.  `day_file = some rows`
models a readable CSV: the statistics are computed and the report file
written.  The result is (how the call returned, the report statistics if a
report was written, the level of the log line emitted). -/
def generate_daily_report (day_file : Option (List CsvRow)) :
    ReportResult × Option DailyStats × String :=
  match day_file with
  | none => (ReportResult.returned_none, none, "INFO")
  | some rows =>
    (ReportResult.returned_none,
     some { total_records := rows.length,
            unique_persons := (rows.map (·.person_id)).dedup.length,
            total_duration_seconds := (rows.map (·.duration_seconds)).sum },
     "INFO")

/-! ## Region detection wrapper (`detect_person_in_region`, lines 475-519) -/

/-- Lines 501-509: the motion threshold scaled by the region/frame area ratio
and clamped to `[1000, 10000]`. -/
def adjusted_threshold (motion_threshold region_area frame_area : ℚ) : ℚ :=
  max 1000 (min 10000 (motion_threshold * (region_area / frame_area)))

/-- The body of the `try` block of `detect_person_in_region` (lines 481-516).
The OpenCV image pipeline (mask construction, background subtraction,
morphology, area measurement) is an external collaborator; `pipeline` stands
for its outcome: either an exception, or the measured pair
`(foreground_area, region_area)`.  The threshold arithmetic that follows is
embedded exactly, including the `ZeroDivisionError` a zero frame area would
raise (caught, like every other exception, by the `except` clause). -/
def detect_try_body (motion_threshold frame_h frame_w : ℚ)
    (pipeline : Except PyError (Nat × ℚ)) : Except PyError Bool :=
  match pipeline with
  | Except.error e => Except.error e
  | Except.ok fa_ra =>
    if frame_h * frame_w = 0 then Except.error PyError.zeroDivisionError
    else
      Except.ok
        (decide (adjusted_threshold motion_threshold fa_ra.2 (frame_h * frame_w) < (fa_ra.1 : ℚ)))

/-- `detect_person_in_region` (lines 475-519): returns `False` when
`self.back_sub is None` (lines 478-479); otherwise runs the `try` block and
returns `False` from the `except` clause on any exception (lines 517-519). -/
def detect_person_in_region (back_sub : Option Unit) (motion_threshold frame_h frame_w : ℚ)
    (pipeline : Except PyError (Nat × ℚ)) : Bool :=
  match back_sub with
  | none => false
  | some _ =>
    match detect_try_body motion_threshold frame_h frame_w pipeline with
    | Except.ok b => b
    | Except.error _ => false

/-! ## Concrete observation sequences used as test inputs -/

/-- A constant detection signal at the given observation times. -/
def obs_of (b : Bool) (ts : List Nat) : List (Bool × Nat) := ts.map (fun t => (b, t))

/-- The observation times `a, a+1, ..., a+n-1`. -/
def times (a n : Nat) : List Nat := (List.range n).map (· + a)

/-- Five positive detections at times `0..4`: the shortest entry. -/
def t5_obs : List (Bool × Nat) := obs_of true (times 0 5)

/-- Four positive detections at times `0..3`: one frame short of entry. -/
def t4_obs : List (Bool × Nat) := obs_of true (times 0 4)

/-- 26 detections whose confirmed exit at the last frame happens although the
raw signal never stays `false` for 20 consecutive frames (the longest false
run is 13): entry happens after the first five `true` frames; the lone `true`
at time 18 arrives when the 15-frame window is false-heavy, so the smoothed
decision stays `false` and the negative counter keeps growing through it. -/
def c1_cex_obs : List (Bool × Nat) :=
  obs_of true (times 0 5) ++ obs_of false (times 5 13) ++ [(true, 18)] ++ obs_of false (times 19 7)

/-- Entry, then fifteen negative frames: the seat is still Occupied
(the negative counter is at 14, below 20) but the 15-frame window is now
entirely `false`. -/
def c6_entry_prefix : List (Bool × Nat) := obs_of true (times 0 5) ++ obs_of false (times 5 15)

/-- Seventeen positive detections at times `20..36`. -/
def c6_true_suffix : List (Bool × Nat) := obs_of true (times 20 17)

/-- Entry at time `0`, then twenty negative frames also at time `0`: one more
negative frame confirms an exit whose interval duration is `0 < 5`. -/
def claim3_obs : List (Bool × Nat) :=
  obs_of true (List.replicate 5 0) ++ obs_of false (List.replicate 20 0)

/-- Entry at time `0`, then twenty-one negative frames at time `10`: the exit
is confirmed at time `10` with duration `10 ≥ 5`, so the record survives. -/
def claim4_obs : List (Bool × Nat) :=
  obs_of true (List.replicate 5 0) ++ obs_of false (List.replicate 21 10)

/-- The completed record produced by `claim4_obs`. -/
def claim4_rec : EventRecord :=
  { timestamp := 0, seat_id := 1, seat_name := "A", person_id := (0, 1), action := "enter",
    exit_time := some 10, duration_seconds := some 10 }

/-! ## Basic lemmas about `run` and the debounce counters -/

lemma run_nil (dbg : Bool) (sid : Nat) (sname : String) (s : TrackerState) :
    run dbg sid sname s [] = s := rfl

lemma run_cons (dbg : Bool) (sid : Nat) (sname : String) (s : TrackerState) (x : Bool × Nat)
    (l : List (Bool × Nat)) :
    run dbg sid sname s (x :: l) = run dbg sid sname (step dbg sid sname s x.1 x.2) l :=
  rfl

lemma run_snoc (dbg : Bool) (sid : Nat) (sname : String) (s : TrackerState)
    (l : List (Bool × Nat)) (x : Bool × Nat) :
    run dbg sid sname s (l ++ [x]) = step dbg sid sname (run dbg sid sname s l) x.1 x.2 := by
  simp [run, List.foldl_append]

lemma run_snoc_pair (dbg : Bool) (sid : Nat) (sname : String) (s : TrackerState)
    (l : List (Bool × Nat)) (d : Bool) (t : Nat) :
    run dbg sid sname s (l ++ [(d, t)]) = step dbg sid sname (run dbg sid sname s l) d t :=
  run_snoc dbg sid sname s l (d, t)

lemma step_pos_enter_counter (sid : Nat) (sname : String) (s1 : TrackerState) (t : Nat) :
    (step_pos sid sname s1 t).enter_counter = s1.enter_counter := by
  unfold step_pos; split <;> rfl

lemma step_pos_leave_counter (sid : Nat) (sname : String) (s1 : TrackerState) (t : Nat) :
    (step_pos sid sname s1 t).leave_counter = s1.leave_counter := by
  unfold step_pos; split <;> rfl

lemma step_exit_enter_counter (dbg : Bool) (s1 : TrackerState) (t : Nat) :
    (step_exit dbg s1 t).enter_counter = s1.enter_counter := by
  unfold step_exit; split <;> rfl

lemma step_exit_leave_counter (dbg : Bool) (s1 : TrackerState) (t : Nat) :
    (step_exit dbg s1 t).leave_counter = s1.leave_counter := by
  unfold step_exit; split <;> rfl

lemma step_neg_enter_counter (dbg : Bool) (s1 : TrackerState) (t : Nat) :
    (step_neg dbg s1 t).enter_counter = s1.enter_counter := by
  unfold step_neg; split
  · exact step_exit_enter_counter dbg s1 t
  · rfl

lemma step_neg_leave_counter (dbg : Bool) (s1 : TrackerState) (t : Nat) :
    (step_neg dbg s1 t).leave_counter = s1.leave_counter := by
  unfold step_neg; split
  · exact step_exit_leave_counter dbg s1 t
  · rfl

/-- The positive counter after a step: incremented on a smoothed-positive
frame (line 412, never reset by the entry transition), reset to `0` on a
smoothed-negative frame (line 434). -/
lemma step_enter_counter (dbg : Bool) (sid : Nat) (sname : String) (s : TrackerState) (d : Bool)
    (t : Nat) :
    (step dbg sid sname s d t).enter_counter =
      if decision s d then s.enter_counter + 1 else 0 := by
  unfold step decision
  by_cases hf : final_occupied (lastN 15 (s.history ++ [d]))
  · simp only [hf, if_true, step_pos_enter_counter]
  · simp only [hf, if_false, step_neg_enter_counter, Bool.false_eq_true]

/-- The negative counter after a step: reset to `0` on a smoothed-positive
frame (line 413), incremented on a smoothed-negative frame (line 433, never
reset by the exit transition). -/
lemma step_leave_counter (dbg : Bool) (sid : Nat) (sname : String) (s : TrackerState) (d : Bool)
    (t : Nat) :
    (step dbg sid sname s d t).leave_counter =
      if decision s d then 0 else s.leave_counter + 1 := by
  unfold step decision
  by_cases hf : final_occupied (lastN 15 (s.history ++ [d]))
  · simp only [hf, if_true, step_pos_leave_counter]
  · simp only [hf, if_false, step_neg_leave_counter, Bool.false_eq_true]

lemma decision_trace_snoc (dbg : Bool) (sid : Nat) (sname : String) :
    ∀ (l : List (Bool × Nat)) (s : TrackerState) (x : Bool × Nat),
      decision_trace dbg sid sname s (l ++ [x]) =
        decision_trace dbg sid sname s l ++ [decision (run dbg sid sname s l) x.1] := by
  intro l
  induction l with
  | nil => intro s x; rfl
  | cons y ys ih =>
    intro s x
    simp only [List.cons_append, decision_trace, List.append_eq, ih, run_cons]

lemma trail_count_snoc (b : Bool) (l : List Bool) (x : Bool) :
    trail_count b (l ++ [x]) = if x = b then trail_count b l + 1 else 0 := by
  simp [trail_count, List.foldl_append]

/-- The debounce counters of any run started from the initial state equal the
lengths of the trailing like-signed runs of the smoothed decision sequence. -/
lemma run_counters (dbg : Bool) (sid : Nat) (sname : String) (l : List (Bool × Nat)) :
    (run dbg sid sname initial_state l).enter_counter =
        trail_count true (decision_trace dbg sid sname initial_state l) ∧
      (run dbg sid sname initial_state l).leave_counter =
        trail_count false (decision_trace dbg sid sname initial_state l) := by
  induction l using List.reverseRecOn with
  | nil => exact ⟨rfl, rfl⟩
  | append_singleton xs x ih =>
    rw [run_snoc, step_enter_counter, step_leave_counter, decision_trace_snoc,
      trail_count_snoc, trail_count_snoc]
    by_cases hd : decision (run dbg sid sname initial_state xs) x.1
    · simp [hd, ih.1]
    · simp [hd, ih.2]

/-! ## Reachability invariants -/

/-- While the seat is Occupied, the last element of `records` is the `enter`
record appended at the current interval's entry transition: its `person_id`
and `timestamp` agree with the seat's current `person_id` and `entry_time`. -/
def live_record_inv (s : TrackerState) : Prop :=
  s.status.occupied = true →
    ∃ pre r, s.records = pre ++ [r] ∧ r.action = "enter" ∧
      s.status.person_id = some r.person_id ∧ s.status.entry_time = some r.timestamp

/-- Every record whose `duration_seconds` has been filled in carries an
`exit_time`, and the duration is exactly `exit_time - timestamp`. -/
def durations_inv (s : TrackerState) : Prop :=
  ∀ r ∈ s.records, ∀ d, r.duration_seconds = some d →
    ∃ ex, r.exit_time = some ex ∧ d = (ex : Int) - (r.timestamp : Int)

def tracker_inv (s : TrackerState) : Prop := live_record_inv s ∧ durations_inv s

lemma inv_initial : tracker_inv initial_state := by
  constructor
  · intro h; simp [initial_state, initial_status] at h
  · intro r hr; simp [initial_state] at hr

lemma update_matching_snoc (pre : List EventRecord) (r : EventRecord)
    (pid : Option (Nat × Nat)) (ex : Nat) (dur : Int)
    (hp : some r.person_id = pid) (ha : r.action = "enter") :
    update_matching (pre ++ [r]) pid ex dur = pre ++ [complete_record r ex dur] := by
  unfold update_matching
  rw [List.reverse_append]
  simp only [List.reverse_cons, List.reverse_nil, List.nil_append, List.singleton_append]
  rw [update_matching_rev, if_pos ⟨hp, ha⟩, List.reverse_cons, List.reverse_reverse]

lemma pop_short_snoc (pre : List EventRecord) (r : EventRecord) (pid : Option (Nat × Nat))
    (ha : r.action = "enter") (hp : some r.person_id = pid) :
    pop_short (pre ++ [r]) pid = pre := by
  unfold pop_short
  rw [List.getLast?_concat]
  simp [ha, hp, List.dropLast_concat]

lemma inv_step_pos (sid : Nat) (sname : String) (s1 : TrackerState) (t : Nat)
    (h : tracker_inv s1) : tracker_inv (step_pos sid sname s1 t) := by
  unfold step_pos
  split
  · constructor
    · intro _
      exact ⟨s1.records, _, rfl, rfl, rfl, rfl⟩
    · intro r hr d hd
      rcases List.mem_append.mp hr with h1 | h2
      · exact h.2 r h1 d hd
      · simp only [List.mem_singleton] at h2
        subst h2
        simp at hd
  · exact h

lemma inv_step_neg (dbg : Bool) (s1 : TrackerState) (t : Nat) (h : tracker_inv s1) :
    tracker_inv (step_neg dbg s1 t) := by
  unfold step_neg
  split
  case isTrue hc =>
    obtain ⟨pre, r, hrec, ha, hp, he⟩ := h.1 hc.1
    unfold step_exit
    rw [he]
    simp only
    constructor
    · intro hcontra
      simp at hcontra
    · intro r' hr' d hd
      rw [hrec] at hr'
      rw [update_matching_snoc pre r _ _ _ hp.symm ha] at hr'
      have ha' : (complete_record r t ((t : Int) - (r.timestamp : Int))).action = "enter" := ha
      have hp' : some (complete_record r t ((t : Int) - (r.timestamp : Int))).person_id =
          s1.status.person_id := hp.symm
      have hmem : r' ∈ pre ++ [complete_record r t ((t : Int) - (r.timestamp : Int))] ∨ r' ∈ pre := by
        by_cases hdur : 5 ≤ (t : Int) - (r.timestamp : Int)
        · rw [if_pos hdur] at hr'; exact Or.inl hr'
        · rw [if_neg hdur] at hr'
          by_cases hb : dbg = true
          · rw [if_pos hb] at hr'; exact Or.inl hr'
          · rw [if_neg hb, pop_short_snoc _ _ _ ha' hp'] at hr'
            exact Or.inr hr'
      have hpre : r' ∈ pre → ∃ ex, r'.exit_time = some ex ∧ d = (ex : Int) - (r'.timestamp : Int) := by
        intro hmem'
        exact h.2 r' (by rw [hrec]; exact List.mem_append_left _ hmem') d hd
      rcases hmem with h1 | h2
      · rcases List.mem_append.mp h1 with h3 | h4
        · exact hpre h3
        · simp only [List.mem_singleton] at h4
          subst h4
          simp only [complete_record, Option.some.injEq] at hd
          refine ⟨t, rfl, ?_⟩
          show d = (t : Int) - (r.timestamp : Int)
          omega
      · exact hpre h2
  case isFalse => exact h

lemma inv_step (dbg : Bool) (sid : Nat) (sname : String) (s : TrackerState) (d : Bool) (t : Nat)
    (h : tracker_inv s) : tracker_inv (step dbg sid sname s d t) := by
  unfold step
  by_cases hf : final_occupied (lastN 15 (s.history ++ [d]))
  · simp only [hf, if_true]
    exact inv_step_pos sid sname _ t h
  · simp only [hf, Bool.false_eq_true, if_false]
    exact inv_step_neg dbg _ t h

lemma inv_run (dbg : Bool) (sid : Nat) (sname : String) (l : List (Bool × Nat)) :
    tracker_inv (run dbg sid sname initial_state l) := by
  suffices h : ∀ (l : List (Bool × Nat)) (s : TrackerState),
      tracker_inv s → tracker_inv (run dbg sid sname s l) from
    h l initial_state inv_initial
  intro l
  induction l with
  | nil => intro s hs; exact hs
  | cons x xs ih => intro s hs; exact ih _ (inv_step dbg sid sname s x.1 x.2 hs)

/-! ## Transition characterizations -/

lemma step_exit_occupied (dbg : Bool) (s1 : TrackerState) (t : Nat) :
    (step_exit dbg s1 t).status.occupied = false := by
  unfold step_exit; split <;> rfl

/-- A step that flips the seat from Free to Occupied is exactly the entry
transition of lines 416-430: the smoothed decision was positive, the
(incremented) positive counter reached the threshold `5`, and the resulting
state is the one written there. -/
lemma step_entry_char (dbg : Bool) (sid : Nat) (sname : String) (s : TrackerState) (d : Bool)
    (t : Nat) (hocc : s.status.occupied = false)
    (hstep : (step dbg sid sname s d t).status.occupied = true) :
    decision s d = true ∧ 5 ≤ s.enter_counter + 1 ∧
      step dbg sid sname s d t =
        { s with
          status := { s.status with
            occupied := true, entry_time := some t, person_id := some (make_person_id t sid) },
          enter_counter := s.enter_counter + 1, leave_counter := 0,
          history := lastN 15 (s.history ++ [d]),
          records := s.records ++
            [{ timestamp := t, seat_id := sid, seat_name := sname,
               person_id := make_person_id t sid, action := "enter",
               exit_time := none, duration_seconds := none }] } := by
  unfold step at hstep ⊢
  by_cases hf : final_occupied (lastN 15 (s.history ++ [d]))
  · rw [if_pos hf] at hstep ⊢
    unfold step_pos at hstep ⊢
    split at hstep
    next hg =>
      refine ⟨by simpa [decision] using hf, hg.2, ?_⟩
      rw [if_pos hg]
    next hg =>
      exact absurd hstep (by simp [hocc])
  · rw [if_neg hf] at hstep
    unfold step_neg at hstep
    split at hstep
    next hg =>
      rw [step_exit_occupied] at hstep
      exact absurd hstep (by simp)
    next hg =>
      exact absurd hstep (by simp [hocc])

/-- A step that flips the seat from Occupied to Free is exactly the exit
transition of lines 437-459: the smoothed decision was negative, the
(incremented) negative counter reached the threshold `20`, and the step
computes `step_exit` of the counter-updated state. -/
lemma step_exit_char (dbg : Bool) (sid : Nat) (sname : String) (s : TrackerState) (d : Bool)
    (t : Nat) (hocc : s.status.occupied = true)
    (hstep : (step dbg sid sname s d t).status.occupied = false) :
    decision s d = false ∧ 20 ≤ s.leave_counter + 1 ∧
      step dbg sid sname s d t =
        step_exit dbg
          ({ s with
             history := lastN 15 (s.history ++ [d]),
             leave_counter := s.leave_counter + 1,
             enter_counter := 0 }) t := by
  unfold step at hstep ⊢
  by_cases hf : final_occupied (lastN 15 (s.history ++ [d]))
  · rw [if_pos hf] at hstep
    unfold step_pos at hstep
    split at hstep
    next hg =>
      exact absurd hg.1 (by simp [hocc])
    next hg =>
      exact absurd hstep (by simp [hocc])
  · rw [if_neg hf] at hstep ⊢
    unfold step_neg at hstep ⊢
    split at hstep
    next hg =>
      refine ⟨by simpa [decision] using hf, hg.2, ?_⟩
      rw [if_pos hg]
    next hg =>
      exact absurd hstep (by simp [hocc])

/-- A step that does not change the occupancy flag does not change the
records list: records are only appended at the entry transition and only
rewritten or popped at the exit transition. -/
lemma step_records_of_no_transition (dbg : Bool) (sid : Nat) (sname : String) (s : TrackerState)
    (d : Bool) (t : Nat)
    (h : (step dbg sid sname s d t).status.occupied = s.status.occupied) :
    (step dbg sid sname s d t).records = s.records := by
  unfold step at h ⊢
  by_cases hf : final_occupied (lastN 15 (s.history ++ [d]))
  · rw [if_pos hf] at h ⊢
    unfold step_pos at h ⊢
    split at h
    next hg =>
      rw [hg.1] at h
      exact absurd h (by simp)
    next hg =>
      rw [if_neg hg]
  · rw [if_neg hf] at h ⊢
    unfold step_neg at h ⊢
    split at h
    next hg =>
      rw [step_exit_occupied, hg.1] at h
      exact absurd h (by simp)
    next hg =>
      rw [if_neg hg]

lemma step_exit_some (dbg : Bool) (s1 : TrackerState) (t : Nat) (et : Nat)
    (he : s1.status.entry_time = some et) :
    step_exit dbg s1 t =
      { s1 with
        status := { s1.status with
          occupied := false, exit_time := some t, duration := (t : Int) - (et : Int) },
        records :=
          if 5 ≤ (t : Int) - (et : Int) then
            update_matching s1.records s1.status.person_id t ((t : Int) - (et : Int))
          else if dbg = true then
            update_matching s1.records s1.status.person_id t ((t : Int) - (et : Int))
          else
            pop_short (update_matching s1.records s1.status.person_id t ((t : Int) - (et : Int)))
              s1.status.person_id } := by
  unfold step_exit
  rw [he]

/-- Flattened form of a confirmed exit step on a state whose `entry_time` is
known to be set. -/
lemma step_exit_full_char (dbg : Bool) (sid : Nat) (sname : String) (s : TrackerState) (d : Bool)
    (t : Nat) (hocc : s.status.occupied = true)
    (hstep : (step dbg sid sname s d t).status.occupied = false)
    (et : Nat) (he : s.status.entry_time = some et) :
    decision s d = false ∧ 20 ≤ s.leave_counter + 1 ∧
      step dbg sid sname s d t =
        { status := { s.status with
            occupied := false, exit_time := some t, duration := (t : Int) - (et : Int) },
          enter_counter := 0, leave_counter := s.leave_counter + 1,
          history := lastN 15 (s.history ++ [d]),
          records :=
            if 5 ≤ (t : Int) - (et : Int) then
              update_matching s.records s.status.person_id t ((t : Int) - (et : Int))
            else if dbg = true then
              update_matching s.records s.status.person_id t ((t : Int) - (et : Int))
            else
              pop_short (update_matching s.records s.status.person_id t ((t : Int) - (et : Int)))
                s.status.person_id } := by
  obtain ⟨hdec, hlc, heq⟩ := step_exit_char dbg sid sname s d t hocc hstep
  refine ⟨hdec, hlc, ?_⟩
  rw [heq]
  have he' : (({ s with
      history := lastN 15 (s.history ++ [d]),
      leave_counter := s.leave_counter + 1,
      enter_counter := 0 } : TrackerState)).status.entry_time = some et := he
  rw [step_exit_some dbg _ t et he']

/-- The full shape of a confirmed exit reached from the initial state: the
records list ends with the live interval's `enter` record, the exit stamps
`exit_time` and the exact duration, and the records list keeps the completed
record when the duration is at least 5, keeps it also when debug mode is on
(the pop is skipped by the caught `UnboundLocalError` of line 457), and
drops it otherwise. -/
lemma run_step_exit_shape (dbg : Bool) (sid : Nat) (sname : String) (l : List (Bool × Nat))
    (d : Bool) (t : Nat)
    (hocc : (run dbg sid sname initial_state l).status.occupied = true)
    (hstep : (step dbg sid sname (run dbg sid sname initial_state l) d t).status.occupied = false) :
    ∃ pre r, (run dbg sid sname initial_state l).records = pre ++ [r] ∧ r.action = "enter" ∧
      (run dbg sid sname initial_state l).status.person_id = some r.person_id ∧
      (run dbg sid sname initial_state l).status.entry_time = some r.timestamp ∧
      (step dbg sid sname (run dbg sid sname initial_state l) d t).status.exit_time = some t ∧
      (step dbg sid sname (run dbg sid sname initial_state l) d t).status.duration =
        (t : Int) - (r.timestamp : Int) ∧
      (step dbg sid sname (run dbg sid sname initial_state l) d t).records =
        (if 5 ≤ (t : Int) - (r.timestamp : Int) then
          pre ++ [complete_record r t ((t : Int) - (r.timestamp : Int))]
        else if dbg = true then
          pre ++ [complete_record r t ((t : Int) - (r.timestamp : Int))]
        else pre) := by
  obtain ⟨pre, r, hrec, ha, hp, he⟩ := (inv_run dbg sid sname l).1 hocc
  obtain ⟨hdec, hlc, heq⟩ := step_exit_full_char dbg sid sname _ d t hocc hstep r.timestamp he
  refine ⟨pre, r, hrec, ha, hp, he, ?_, ?_, ?_⟩
  · rw [heq]
  · rw [heq]
  · rw [heq]
    show (if 5 ≤ (t : Int) - (r.timestamp : Int) then
        update_matching (run dbg sid sname initial_state l).records
          (run dbg sid sname initial_state l).status.person_id t ((t : Int) - (r.timestamp : Int))
      else if dbg = true then
        update_matching (run dbg sid sname initial_state l).records
          (run dbg sid sname initial_state l).status.person_id t ((t : Int) - (r.timestamp : Int))
      else
        pop_short
          (update_matching (run dbg sid sname initial_state l).records
            (run dbg sid sname initial_state l).status.person_id t ((t : Int) - (r.timestamp : Int)))
          (run dbg sid sname initial_state l).status.person_id) = _
    rw [hrec, update_matching_snoc pre r _ t _ hp.symm ha]
    by_cases hdur : 5 ≤ (t : Int) - (r.timestamp : Int)
    · rw [if_pos hdur, if_pos hdur]
    · rw [if_neg hdur, if_neg hdur]
      by_cases hb : dbg = true
      · rw [if_pos hb, if_pos hb]
      · rw [if_neg hb, if_neg hb]
        exact pop_short_snoc pre (complete_record r t ((t : Int) - (r.timestamp : Int)))
          (run dbg sid sname initial_state l).status.person_id ha hp.symm

/-! ## Claim theorems -/

/-- C1, counterexample to the claim as stated for raw detections: the
detection sequence `c1_cex_obs` produces a confirmed Occupied-to-Free
transition at its last frame (the seat is Occupied after 25 frames and Free
after 26, with debug mode off, its default) even though the raw per-frame
detections never contain 20 consecutive `false` observations — the longest
false run is 13.  The exit threshold is met by the smoothed decision signal,
not by the raw detections fed to the tracker. -/
theorem claim1_counterexample :
    (run false 1 "A" initial_state (c1_cex_obs.take 25)).status.occupied = true ∧
      (run false 1 "A" initial_state c1_cex_obs).status.occupied = false ∧
      max_run false (c1_cex_obs.map Prod.fst) = 13 := by
  decide

/-- C1 (amended): for every region, every debug-mode setting and every
observation sequence, the debounced `occupied` state never transitions until
the respective threshold of consecutive like-signed *smoothed* observations
(the `>80%`-of-last-15 majority decisions of line 404) has been reached: at
a Free-to-Occupied transition the last 5 smoothed decisions were all
positive, and at an Occupied-to-Free transition the last 20 smoothed
decisions were all negative. -/
theorem claim1_debounce_thresholds (dbg : Bool) (sid : Nat) (sname : String)
    (l : List (Bool × Nat)) (d : Bool) (t : Nat) :
    ((run dbg sid sname initial_state l).status.occupied = false →
      (step dbg sid sname (run dbg sid sname initial_state l) d t).status.occupied = true →
      5 ≤ trail_count true (decision_trace dbg sid sname initial_state (l ++ [(d, t)]))) ∧
    ((run dbg sid sname initial_state l).status.occupied = true →
      (step dbg sid sname (run dbg sid sname initial_state l) d t).status.occupied = false →
      20 ≤ trail_count false (decision_trace dbg sid sname initial_state (l ++ [(d, t)]))) := by
  constructor
  · intro h0 h1
    obtain ⟨hdec, hthr, heq⟩ := step_entry_char dbg sid sname _ d t h0 h1
    have h5 : 5 ≤ (step dbg sid sname (run dbg sid sname initial_state l) d t).enter_counter := by
      rw [heq]; exact hthr
    have h2 := (run_counters dbg sid sname (l ++ [(d, t)])).1
    rw [run_snoc_pair] at h2
    omega
  · intro h0 h1
    obtain ⟨hdec, hthr, heq⟩ := step_exit_char dbg sid sname _ d t h0 h1
    have h20 : 20 ≤ (step dbg sid sname (run dbg sid sname initial_state l) d t).leave_counter := by
      rw [heq, step_exit_leave_counter]; exact hthr
    have h2 := (run_counters dbg sid sname (l ++ [(d, t)])).2
    rw [run_snoc_pair] at h2
    omega

/-- Witness for C1 (amended): a concrete entry transition after
`[T,T,T,T]` plus a fifth `T`, and the concrete exit transition at the last
frame of `c1_cex_obs`. -/
theorem claim1_debounce_thresholds_witness :
    5 ≤ trail_count true (decision_trace false 1 "A" initial_state (t4_obs ++ [(true, 4)])) ∧
      20 ≤ trail_count false (decision_trace false 1 "A" initial_state
        (c1_cex_obs.take 25 ++ [(false, 25)])) :=
  ⟨(claim1_debounce_thresholds false 1 "A" t4_obs true 4).1 (by decide) (by decide),
   (claim1_debounce_thresholds false 1 "A" (c1_cex_obs.take 25) false 25).2
     (by decide) (by decide)⟩

/-- C2, counterexample: after the five positive frames of `t5_obs` the seat
has just entered Occupied — no exit transition has ever happened
(`exit_time` is still `none`) — yet the records list is already non-empty:
a record *is* appended at entry time, contradicting the claim that records
are created only at the confirmed exit transition. -/
theorem claim2_counterexample :
    (run false 1 "A" initial_state t5_obs).status.occupied = true ∧
      (run false 1 "A" initial_state t5_obs).status.exit_time = none ∧
      (run false 1 "A" initial_state t5_obs).records ≠ [] := by
  decide

/-- C2 (amended): over all states reachable from the initial state, a record
(with `action = "enter"`) is appended exactly at the confirmed entry
transition; a step that causes no transition never modifies the records
list; and at a confirmed exit the interval's record (the last element) is
completed in place with `exit_time` and `duration_seconds` and is then
removed exactly when the interval is shorter than 5 seconds *and* debug
mode is off — with debug mode on, line 457 raises `UnboundLocalError` on
the unassigned local `timestamp_str` before the pop (the exception is
caught by the frame loop), so the completed record is retained. -/
theorem claim2_records_lifecycle (dbg : Bool) (sid : Nat) (sname : String)
    (l : List (Bool × Nat)) (d : Bool) (t : Nat) :
    ((run dbg sid sname initial_state l).status.occupied = false →
      (step dbg sid sname (run dbg sid sname initial_state l) d t).status.occupied = true →
      (step dbg sid sname (run dbg sid sname initial_state l) d t).records =
        (run dbg sid sname initial_state l).records ++
          [{ timestamp := t, seat_id := sid, seat_name := sname,
             person_id := make_person_id t sid, action := "enter",
             exit_time := none, duration_seconds := none }]) ∧
    ((step dbg sid sname (run dbg sid sname initial_state l) d t).status.occupied =
        (run dbg sid sname initial_state l).status.occupied →
      (step dbg sid sname (run dbg sid sname initial_state l) d t).records =
        (run dbg sid sname initial_state l).records) ∧
    ((run dbg sid sname initial_state l).status.occupied = true →
      (step dbg sid sname (run dbg sid sname initial_state l) d t).status.occupied = false →
      ∃ pre r, (run dbg sid sname initial_state l).records = pre ++ [r] ∧ r.action = "enter" ∧
        (run dbg sid sname initial_state l).status.person_id = some r.person_id ∧
        (step dbg sid sname (run dbg sid sname initial_state l) d t).records =
          (if 5 ≤ (t : Int) - (r.timestamp : Int) then
            pre ++ [complete_record r t ((t : Int) - (r.timestamp : Int))]
          else if dbg = true then
            pre ++ [complete_record r t ((t : Int) - (r.timestamp : Int))]
          else pre)) := by
  refine ⟨?_, ?_, ?_⟩
  · intro h0 h1
    rw [(step_entry_char dbg sid sname _ d t h0 h1).2.2]
  · exact step_records_of_no_transition dbg sid sname _ d t
  · intro h0 h1
    obtain ⟨pre, r, hrec, ha, hp, he, hex, hdur, hrc⟩ :=
      run_step_exit_shape dbg sid sname l d t h0 h1
    exact ⟨pre, r, hrec, ha, hp, hrc⟩

/-- Witness for C2 (amended): the concrete entry transition appends exactly
the enter record; a concrete non-transition step leaves records unchanged;
and the concrete short exit of `claim3_obs` with debug mode off yields the
exit-side records formula. -/
theorem claim2_records_lifecycle_witness :
    ((step false 1 "A" (run false 1 "A" initial_state t4_obs) true 4).records =
        (run false 1 "A" initial_state t4_obs).records ++
          [{ timestamp := 4, seat_id := 1, seat_name := "A",
             person_id := make_person_id 4 1, action := "enter",
             exit_time := none, duration_seconds := none }]) ∧
      ((step false 1 "A" (run false 1 "A" initial_state []) false 0).records =
        (run false 1 "A" initial_state []).records) ∧
      (∃ pre r, (run false 1 "A" initial_state claim3_obs).records = pre ++ [r] ∧
        r.action = "enter" ∧
        (run false 1 "A" initial_state claim3_obs).status.person_id = some r.person_id ∧
        (step false 1 "A" (run false 1 "A" initial_state claim3_obs) false 0).records =
          (if 5 ≤ ((0 : Nat) : Int) - (r.timestamp : Int) then
            pre ++ [complete_record r 0 (((0 : Nat) : Int) - (r.timestamp : Int))]
          else if (false : Bool) = true then
            pre ++ [complete_record r 0 (((0 : Nat) : Int) - (r.timestamp : Int))]
          else pre)) :=
  ⟨(claim2_records_lifecycle false 1 "A" t4_obs true 4).1 (by decide) (by decide),
   (claim2_records_lifecycle false 1 "A" [] false 0).2.1 (by decide),
   (claim2_records_lifecycle false 1 "A" claim3_obs false 0).2.2 (by decide) (by decide)⟩

/-- C3, counterexample to the claim as stated: with debug mode on (the
documented `-d` flag), the short interval of `claim3_obs` (entry at time 0,
exit confirmed at time 0, duration `0 < 5`) does transition the seat back to
Free with `exit_time` set, but the interval's record *is* retained: line 457
reads the never-assigned local `timestamp_str` and raises
`UnboundLocalError` before the pop on lines 458-459, the frame loop catches
it, and the completed record stays in `records`. -/
theorem claim3_counterexample :
    (run true 1 "A" initial_state claim3_obs).status.occupied = true ∧
      (step true 1 "A" (run true 1 "A" initial_state claim3_obs) false 0).status.occupied = false ∧
      (step true 1 "A" (run true 1 "A" initial_state claim3_obs) false 0).status.duration = 0 ∧
      (step true 1 "A" (run true 1 "A" initial_state claim3_obs) false 0).status.exit_time =
        some 0 ∧
      (step true 1 "A" (run true 1 "A" initial_state claim3_obs) false 0).records =
        [{ timestamp := 0, seat_id := 1, seat_name := "A", person_id := (0, 1),
           action := "enter", exit_time := some 0, duration_seconds := some 0 }] := by
  decide

/-- C3 (amended): an occupancy interval whose confirmed exit yields a
duration strictly below the 5-second minimum still transitions the seat back
to Free with `exit_time` set; with debug mode off the interval's record (the
last element, matching the seat's `person_id`) is removed, leaving exactly
the records that existed before the interval, while with debug mode on the
pop is skipped (line 457 raises `UnboundLocalError` first, caught by the
frame loop) and the completed record is retained. -/
theorem claim3_short_exit_behaviour (dbg : Bool) (sid : Nat) (sname : String)
    (l : List (Bool × Nat)) (d : Bool) (t : Nat)
    (hocc : (run dbg sid sname initial_state l).status.occupied = true)
    (hstep : (step dbg sid sname (run dbg sid sname initial_state l) d t).status.occupied = false)
    (hshort : (step dbg sid sname (run dbg sid sname initial_state l) d t).status.duration < 5) :
    (step dbg sid sname (run dbg sid sname initial_state l) d t).status.exit_time = some t ∧
      ∃ pre r, (run dbg sid sname initial_state l).records = pre ++ [r] ∧
        (run dbg sid sname initial_state l).status.person_id = some r.person_id ∧
        (step dbg sid sname (run dbg sid sname initial_state l) d t).records =
          (if dbg = true then pre ++ [complete_record r t ((t : Int) - (r.timestamp : Int))]
           else pre) := by
  obtain ⟨pre, r, hrec, ha, hp, he, hex, hdur, hrc⟩ :=
    run_step_exit_shape dbg sid sname l d t hocc hstep
  refine ⟨hex, pre, r, hrec, hp, ?_⟩
  rw [hdur] at hshort
  rw [hrc, if_neg (by omega)]

/-- Witness for C3 (amended): entry at time 0, twenty-one negative frames at
time 0, debug mode off; the exit has duration `0 < 5`, the state flips to
Free with `exit_time = 0`, and the records list returns to what it was
before the interval. -/
theorem claim3_short_exit_behaviour_witness :
    (step false 1 "A" (run false 1 "A" initial_state claim3_obs) false 0).status.exit_time =
        some 0 ∧
      ∃ pre r, (run false 1 "A" initial_state claim3_obs).records = pre ++ [r] ∧
        (run false 1 "A" initial_state claim3_obs).status.person_id = some r.person_id ∧
        (step false 1 "A" (run false 1 "A" initial_state claim3_obs) false 0).records = pre :=
  claim3_short_exit_behaviour false 1 "A" claim3_obs false 0 (by decide) (by decide) (by decide)

/-- C4: every record whose `duration_seconds` has been emitted carries an
`exit_time`, and the duration equals exactly `exit_time` minus the record's
`timestamp` — which is the interval's `entry_time`, since the entry
transition writes the same observation time into both (lines 418 and 425).
No drift is introduced by the debounce bookkeeping, in either debug mode:
even a record retained by the debug-path crash was completed on lines
447-448 before the crash point. -/
theorem claim4_duration_exact (dbg : Bool) (sid : Nat) (sname : String) (l : List (Bool × Nat))
    (r : EventRecord) (hr : r ∈ (run dbg sid sname initial_state l).records)
    (dd : Int) (hd : r.duration_seconds = some dd) :
    ∃ ex, r.exit_time = some ex ∧ dd = (ex : Int) - (r.timestamp : Int) :=
  (inv_run dbg sid sname l).2 r hr dd hd

/-- Witness for C4: the completed record produced by `claim4_obs` has
duration `10 = 10 - 0`. -/
theorem claim4_duration_exact_witness :
    ∃ ex, claim4_rec.exit_time = some ex ∧ (10 : Int) = (ex : Int) - (claim4_rec.timestamp : Int) :=
  claim4_duration_exact false 1 "A" claim4_obs claim4_rec (by decide) 10 (by decide)

/-- C5, counterexample: after the five positive frames of `t5_obs` the entry
transition has just fired (`entry_time = some 4`, the time of the fifth
frame), but the consecutive-positive counter is `5`, not `0`: the code never
resets `enter_counters[seat_id]` at the transition (lines 416-430), it is
only cleared later by a smoothed-negative frame (line 434). -/
theorem claim5_counterexample :
    (run false 1 "A" initial_state t5_obs).status.occupied = true ∧
      (run false 1 "A" initial_state t5_obs).status.entry_time = some 4 ∧
      (run false 1 "A" initial_state t5_obs).enter_counter = 5 := by
  decide

/-- C5 (amended): at a Free-to-Occupied transition the tracker sets
`entry_time` to the current observation time and assigns a `person_id`
derived from that time and the seat id, but the consecutive positive counter
is *not* reset to zero — it keeps its just-incremented value. -/
theorem claim5_entry_sets_fields (dbg : Bool) (sid : Nat) (sname : String) (s : TrackerState)
    (d : Bool) (t : Nat) (h0 : s.status.occupied = false)
    (h1 : (step dbg sid sname s d t).status.occupied = true) :
    (step dbg sid sname s d t).status.entry_time = some t ∧
      (step dbg sid sname s d t).status.person_id = some (make_person_id t sid) ∧
      (step dbg sid sname s d t).enter_counter = s.enter_counter + 1 := by
  rw [(step_entry_char dbg sid sname s d t h0 h1).2.2]
  exact ⟨rfl, rfl, rfl⟩

/-- Witness for C5 (amended): the concrete entry transition at time 4. -/
theorem claim5_entry_sets_fields_witness :
    (step false 1 "A" (run false 1 "A" initial_state t4_obs) true 4).status.entry_time = some 4 ∧
      (step false 1 "A" (run false 1 "A" initial_state t4_obs) true 4).status.person_id =
        some (make_person_id 4 1) ∧
      (step false 1 "A" (run false 1 "A" initial_state t4_obs) true 4).enter_counter =
        (run false 1 "A" initial_state t4_obs).enter_counter + 1 :=
  claim5_entry_sets_fields false 1 "A" (run false 1 "A" initial_state t4_obs) true 4
    (by decide) (by decide)

/-- C6, counterexample: `c6_entry_prefix` leaves the seat Occupied (entry at
time 4) with a false-saturated 15-frame window; feeding seventeen frames of
`detected = true` (and nothing else) from that state makes the tracker first
confirm an exit and then fire a *second* entry: `entry_time` changes from 4
to 36 and a second enter record is appended.  Feeding `detected = true`
repeatedly to an Occupied region is therefore not idempotent. -/
theorem claim6_counterexample :
    (run false 1 "A" initial_state c6_entry_prefix).status.occupied = true ∧
      c6_true_suffix.map Prod.fst = List.replicate 17 true ∧
      (run false 1 "A" initial_state c6_entry_prefix).status.entry_time = some 4 ∧
      (run false 1 "A" (run false 1 "A" initial_state c6_entry_prefix)
        c6_true_suffix).status.entry_time = some 36 ∧
      (run false 1 "A" (run false 1 "A" initial_state c6_entry_prefix)
        c6_true_suffix).records.length = 2 := by
  decide

/-- C6 (amended): while the seat is Occupied, any frame whose *smoothed*
decision is positive is absorbed, in either debug mode: the whole seat
status (including `entry_time` and `person_id`) and the records list are
unchanged, so no further entry event can be produced.  (For raw
`detected = true` frames this fails — see the counterexample — because a
true frame arriving on a false-heavy window yields a negative smoothed
decision.) -/
theorem claim6_occupied_absorbing (dbg : Bool) (sid : Nat) (sname : String) (s : TrackerState)
    (d : Bool) (t : Nat) (hocc : s.status.occupied = true) (hdec : decision s d = true) :
    (step dbg sid sname s d t).status = s.status ∧
      (step dbg sid sname s d t).records = s.records := by
  have hf : final_occupied (lastN 15 (s.history ++ [d])) = true := hdec
  unfold step
  rw [if_pos hf]
  unfold step_pos
  rw [if_neg (by simp [hocc])]
  exact ⟨rfl, rfl⟩

/-- Witness for C6 (amended): an extra positive frame right after entry
(history all-true, so the smoothed decision is positive) changes neither the
status nor the records. -/
theorem claim6_occupied_absorbing_witness :
    (step false 1 "A" (run false 1 "A" initial_state t5_obs) true 9).status =
        (run false 1 "A" initial_state t5_obs).status ∧
      (step false 1 "A" (run false 1 "A" initial_state t5_obs) true 9).records =
        (run false 1 "A" initial_state t5_obs).records :=
  claim6_occupied_absorbing false 1 "A" (run false 1 "A" initial_state t5_obs) true 9
    (by decide) (by decide)

/-- C7: in every state reachable from the initial state (in which the seat
is Free with `entry_time = none`), in either debug mode, `occupied = true`
implies that `entry_time` is set; the proof is by induction over observation
steps, so every step preserves the invariant. -/
theorem claim7_occupied_has_entry_time (dbg : Bool) (sid : Nat) (sname : String)
    (l : List (Bool × Nat))
    (h : (run dbg sid sname initial_state l).status.occupied = true) :
    (run dbg sid sname initial_state l).status.entry_time ≠ none := by
  obtain ⟨pre, r, _, _, _, he⟩ := (inv_run dbg sid sname l).1 h
  rw [he]
  simp

/-- Witness for C7: after five positive frames the seat is Occupied and
`entry_time` is set. -/
theorem claim7_occupied_has_entry_time_witness :
    (run false 1 "A" initial_state t5_obs).status.entry_time ≠ none :=
  claim7_occupied_has_entry_time false 1 "A" t5_obs (by decide)

/-- C8: evidence of the code bug.  When the configuration file is missing or
invalid, `load_config`'s `except` branch calls `self.log_message(...)` —
but `__init__` calls `load_config` (line 25) *before* assigning
`self.log_file` (line 31), so reading `self.log_file` inside `log_message`
raises `AttributeError`, which propagates out of the constructor instead of
falling back to the defaults.  The second conjunct shows the intended
behaviour is in the code: had the `log_file` attribute existed, the same
call would have returned the documented default configuration. -/
theorem claim8_config_fallback_crashes :
    init_load_config none = Except.error PyError.attributeError ∧
      load_config none (some none) = Except.ok default_config :=
  ⟨rfl, rfl⟩

/-- C9, counterexample: for a day with no records file,
`generate_daily_report` returns normally (Python `None`) — it does not fail
with an error result, contradicting the claim that the condition is
reported to the caller as an error. -/
theorem claim9_counterexample :
    (generate_daily_report none).1 = ReportResult.returned_none := rfl

/-- C9 (amended): when no records exist for the requested day,
`generate_daily_report` logs an informational message and returns `None`
without producing a report; the caller receives no error indication. -/
theorem claim9_no_data_returns_normally :
    generate_daily_report none = (ReportResult.returned_none, none, "INFO") := rfl

/-- C10: `detect_person_in_region` is total at its public interface — it
returns `False` when the background subtractor is unavailable
(lines 478-479) and `False` whenever the internal image-processing pipeline
raises (the `except` clause, lines 517-519); by construction every exception
of the `try` body is a value of the `Except` type, so none propagates. -/
theorem claim10_detect_total (mt fh fw : ℚ) (pl : Except PyError (Nat × ℚ)) :
    detect_person_in_region none mt fh fw pl = false ∧
      (∀ bs e, pl = Except.error e → detect_person_in_region bs mt fh fw pl = false) := by
  refine ⟨rfl, ?_⟩
  intro bs e hpl
  cases bs with
  | none => rfl
  | some u => simp [detect_person_in_region, detect_try_body, hpl]

/-- Witness for C10: a missing background subtractor and a failing pipeline
both yield `False` on concrete inputs. -/
theorem claim10_detect_total_witness :
    detect_person_in_region none 10000 720 1280 (Except.ok (5000, 40000)) = false ∧
      detect_person_in_region (some ()) 10000 720 1280
        (Except.error PyError.zeroDivisionError) = false :=
  ⟨(claim10_detect_total 10000 720 1280 (Except.ok (5000, 40000))).1,
   (claim10_detect_total 10000 720 1280 (Except.error PyError.zeroDivisionError)).2
     (some ()) PyError.zeroDivisionError rfl⟩
